import Mathlib

/-!
Shallow embedding of `src/ONICS.py` (ONICS — Optical Navigation and
Interference Control System) and proofs about its behaviour.

The program consists of:
* a device prober `is_device_connected` and a diagnostic `enumerate_devices`,
  both invoking the external tool `rs-enumerate-devices` via `subprocess.run`
  (without `check=True`);
* three worker thread bodies `mavproxy_create_connection`, `run_t265`,
  `run_d4xx`;
* a log follower `publish_logs`;
* a `__main__` block that parses flags, starts the threads, and runs a
  monitoring loop restarting threads that are no longer alive.

External effects (subprocess outcomes, thread deaths, probe results, file
appends) are modelled as explicit environment parameters; Python exceptions
are modelled with `Except`.
-/

namespace ONICS

/-- Python exception classes relevant to this program.  `subprocess.run`
raises `FileNotFoundError` when the executable cannot be started, and raises
`CalledProcessError` only when called with `check=True` and the child exits
with a non-zero status. -/
inductive PyExc
  | calledProcessError
  | fileNotFoundError
deriving DecidableEq

/-- Outcome of one invocation of `subprocess.run(["rs-enumerate-devices"],
capture_output=True, text=True)` (no `check=True`): either the executable
cannot be invoked (Python raises `FileNotFoundError`), or the tool runs to
completion with some exit status and captured standard output, given here
already split into lines (`result.stdout.splitlines()`).  Without
`check=True`, completion never raises, whatever the exit status. -/
inductive SubprocessOutcome
  | raisesFileNotFound
  | completes (returncode : Int) (stdoutLines : List String)
deriving DecidableEq

/-- Helper for the Python substring test: does `pat` occur contiguously in
`hay`? -/
def substrAux (pat : List Char) : List Char → Bool
  | [] => pat.isEmpty
  | c :: rest => pat.isPrefixOf (c :: rest) || substrAux pat rest

/-- Python `pat in s` on strings: case-sensitive contiguous substring test. -/
def pyIn (pat s : String) : Bool := substrAux pat.data s.data

/-- Python `s.strip()`: remove leading and trailing whitespace. -/
def pyStrip (s : String) : String :=
  ⟨((s.data.dropWhile Char.isWhitespace).reverse.dropWhile Char.isWhitespace).reverse⟩

/-- Severity of a `logging` call made by the program. -/
inductive LogLevel
  | info
  | warning
  | error
deriving DecidableEq

/-- One log record appended by a `logging.error` / `logging.warning` call. -/
structure LogLine where
  level : LogLevel
  msg : String
deriving DecidableEq

/-- Scan loop of `is_device_connected`: `for line in lines: if device_prefix
in line: return True`, then `return False`. -/
def scanForDevice (pfx : String) : List String → Bool
  | [] => false
  | line :: rest => if pyIn pfx line then true else scanForDevice pfx rest

/-- Body of the `try` block of `is_device_connected`: run the tool once and
scan its output.  An invocation failure surfaces as the raised exception. -/
def deviceCheckBody (pfx : String) : SubprocessOutcome → Except PyExc Bool
  | .raisesFileNotFound => .error .fileNotFoundError
  | .completes _ lines => .ok (scanForDevice pfx lines)

/-- Embedding of `is_device_connected(device_prefix)` (ONICS.py lines
31–41).  The `except subprocess.CalledProcessError` clause catches only that
class, logging the failure and returning `False`; any other exception (in
particular `FileNotFoundError` from a missing tool) propagates out of the
function.  Returns the result (or the escaping exception) together with the
log records written. -/
def is_device_connected (pfx : String) (run : SubprocessOutcome) :
    Except PyExc Bool × List LogLine :=
  match deviceCheckBody pfx run with
  | .error .calledProcessError =>
      (.ok false, [⟨.error, "Error checking for RealSense devices"⟩])
  | .error e => (.error e, [])
  | .ok b => (.ok b, [])

/-- Oracle-threaded variant of `is_device_connected`: the external tool is a
list of successive invocation outcomes and the call consumes the first one.
The empty-environment case never arises in the theorems below. -/
def is_device_connectedEnv (pfx : String) :
    List SubprocessOutcome → (Except PyExc Bool × List LogLine) × List SubprocessOutcome
  | [] => ((.error .fileNotFoundError, []), [])
  | o :: rest => (is_device_connected pfx o, rest)

/-- The fixed list `relevant_devices = ["T265", "D4"]` of `enumerate_devices`. -/
def relevant_devices : List String := ["T265", "D4"]

/-- Inner loop of `enumerate_devices` over `relevant_devices` for one output
line: on the first matching device class the stripped line is appended to
`detected_devices` and the loop `break`s, so a line is appended at most
once. -/
def appendMatches (line : String) : List String → List String
  | [] => []
  | pfx :: rest => if pyIn pfx line then [pyStrip line] else appendMatches line rest

/-- Outer loop of `enumerate_devices` over the tool's stdout lines,
collecting `detected_devices`. -/
def detectLines : List String → List String
  | [] => []
  | line :: rest => appendMatches line relevant_devices ++ detectLines rest

/-- Report printing at the end of `enumerate_devices`: a header plus one line
per detected device, or a none-detected message. -/
def printReport (ds : List String) : List String :=
  if ds.isEmpty then ["No relevant RealSense devices detected."]
  else "Detected RealSense Devices:" :: ds

/-- Embedding of `enumerate_devices()` (ONICS.py lines 44–64), returning the
lines printed to the console (or the escaping exception).  As in
`is_device_connected`, the `except` clause catches only
`subprocess.CalledProcessError`; on a caught error `detected_devices` stays
empty and the report is still printed. -/
def enumerate_devices (run : SubprocessOutcome) : Except PyExc (List String) :=
  match (match run with
         | .raisesFileNotFound => Except.error PyExc.fileNotFoundError
         | .completes _ lines => Except.ok (detectLines lines)) with
  | .error .calledProcessError => .ok (printReport [])
  | .error e => .error e
  | .ok ds => .ok (printReport ds)

/-- Parsed command-line flags of the `__main__` block. -/
structure Args where
  enumerate : Bool
  disable_t265 : Bool
  disable_d4xx : Bool
  sik_only : Bool
deriving DecidableEq

/-- Flag handling of the `__main__` block (ONICS.py lines 129–137): the
module globals start as `t265_enabled = True`, `d4xx_enabled = True`;
`sik-only` forces both to `False`, otherwise each `disable-*` flag clears its
own global.  Returns `(t265_enabled, d4xx_enabled)`. -/
def flagsAfterStartup (a : Args) : Bool × Bool :=
  if a.sik_only then (false, false)
  else ((if a.disable_t265 then false else true),
        (if a.disable_d4xx then false else true))

/-- Which top-level branch the `__main__` block takes. -/
inductive MainBranch
  | diagnostic
  | supervise (t265_enabled d4xx_enabled : Bool)
deriving DecidableEq

/-- Top-level dispatch of the `__main__` block (ONICS.py lines 126–137):
`--enumerate` runs only `enumerate_devices()` and skips supervision
entirely; otherwise flags are resolved and supervision starts. -/
def mainBranch (a : Args) : MainBranch :=
  if a.enumerate then .diagnostic
  else .supervise (flagsAfterStartup a).1 (flagsAfterStartup a).2

/-- The three thread target functions tracked by the `__main__` monitor
loop. -/
inductive Worker
  | mav
  | t265
  | d4xx
deriving DecidableEq

/-- State of the supervision part of the `__main__` block.  Threads are
identified by allocation ids; `thread1`, `thread2`, `thread3` are the ids
stored in the main-scope variables of those names.  Inside the monitor loop
the rebinding `thread = threading.Thread(target=func)` only rebinds the
loop-local variable, so `thread1`/`thread2`/`thread3` are never reassigned
after startup.  `runs` lists the currently alive threads with their target
functions; `nextId` is the next fresh thread id. -/
structure SupState where
  t265_enabled : Bool
  d4xx_enabled : Bool
  thread1 : Nat
  thread2 : Nat
  thread3 : Nat
  nextId : Nat
  runs : List (Nat × Worker)
deriving DecidableEq

/-- Thread startup of the `__main__` block (ONICS.py lines 147–156):
`thread1` (mavproxy) always starts; `thread2` / `thread3` start only when
their enabled flag is true.  Ids are allocated in start order; a variable
for a thread that was never started holds the dummy id 0, which the monitor
loop never consults because the corresponding flag is false forever. -/
def initState (a : Args) : SupState :=
  let t := (flagsAfterStartup a).1
  let d := (flagsAfterStartup a).2
  let id2 := if t then 1 else 0
  let n2 := if t then 2 else 1
  let id3 := if d then n2 else 0
  let n3 := if d then n2 + 1 else n2
  { t265_enabled := t
    d4xx_enabled := d
    thread1 := 0
    thread2 := id2
    thread3 := id3
    nextId := n3
    runs := [(0, Worker.mav)]
      ++ (if t then [(id2, Worker.t265)] else [])
      ++ (if d then [(id3, Worker.d4xx)] else []) }

/-- The `threads` list built at the top of each monitor cycle (ONICS.py
lines 160–164): always `(thread1, mavproxy_create_connection)`, plus the
t265 and d4xx entries guarded by their enabled flags. -/
def checkedThreads (s : SupState) : List (Nat × Worker) :=
  [(s.thread1, Worker.mav)]
    ++ (if s.t265_enabled then [(s.thread2, Worker.t265)] else [])
    ++ (if s.d4xx_enabled then [(s.thread3, Worker.d4xx)] else [])

/-- Is the thread with the given id alive? -/
def isLive (runs : List (Nat × Worker)) (id : Nat) : Bool :=
  runs.any (fun r => r.1 == id)

/-- The `for thread, func in threads` pass of the monitor loop (ONICS.py
lines 165–168): for each checked pair, if that thread is not alive, start a
fresh thread running `func`.  The fresh handle is bound to the loop-local
variable and dropped; `thread1`/`thread2`/`thread3` stay as they were. -/
def spawnPass : List (Nat × Worker) → SupState → SupState
  | [], s => s
  | (id, w) :: rest, s =>
      if isLive s.runs id then spawnPass rest s
      else spawnPass rest
        { s with runs := s.runs ++ [(s.nextId, w)], nextId := s.nextId + 1 }

/-- Removal of the threads that terminated since the previous cycle. -/
def afterDeaths (died : List Nat) (s : SupState) : SupState :=
  { s with runs := s.runs.filter (fun r => !(died.contains r.1)) }

/-- One iteration of the `while True` monitor loop (ONICS.py lines
159–169), parameterised by the set of thread ids that terminated since the
previous observation: the `threads` list is rebuilt from the (stale)
`thread1`/`thread2`/`thread3` variables and the current flags, and each
entry that is not alive is respawned. -/
def monitorCycle (died : List Nat) (s : SupState) : SupState :=
  spawnPass (checkedThreads (afterDeaths died s)) (afterDeaths died s)

/-- Interleaved system behaviour around the monitor loop.  A step is either
one monitor cycle (with an environment-chosen set of thread deaths observed
by it), a thread terminating on its own (its target function returned or
raised), or a hardware-gated run loop writing `False` to its global enabled
flag on the hardware-absent path (`run_t265` / `run_d4xx`, which requires a
live thread of that kind). -/
inductive SupStep : SupState → SupState → Prop
  | monitor (died : List Nat) (s : SupState) : SupStep s (monitorCycle died s)
  | terminate (id : Nat) (s : SupState) :
      SupStep s { s with runs := s.runs.filter (fun r => !(r.1 == id)) }
  | disableT265 (id : Nat) (s : SupState) (h : (id, Worker.t265) ∈ s.runs) :
      SupStep s { s with t265_enabled := false }
  | disableD4xx (id : Nat) (s : SupState) (h : (id, Worker.d4xx) ∈ s.runs) :
      SupStep s { s with d4xx_enabled := false }

/-- Reachability in zero or more supervision steps. -/
def SupReach : SupState → SupState → Prop := Relation.ReflTransGen SupStep

/-- Both hardware-gated flags are false and every live thread runs the
telemetry relay (`mavproxy_create_connection`). -/
def MavOnly (s : SupState) : Prop :=
  s.t265_enabled = false ∧ s.d4xx_enabled = false
    ∧ ∀ r ∈ s.runs, r.2 = Worker.mav

/-- Environment outcome of one iteration of the `run_t265` / `run_d4xx`
while-loop body: the probe may report the device present (and then the
launched script exits, cleanly or not), report it absent, or the probe call
itself may raise (`is_device_connected` lets `FileNotFoundError` escape, and
the run loop catches only `subprocess.CalledProcessError` from the script
launch). -/
inductive IterOutcome
  | present (scriptOk : Bool)
  | absent
  | probeRaises
deriving DecidableEq

/-- Observable action of a run-loop iteration. -/
inductive WorkerEvent
  | launch (script : String)
  | scriptError (script : String)
  | warnSkip (msg : String)
  | setDisabled
deriving DecidableEq

/-- How a run loop left (or has not yet left) its while-loop. -/
inductive LoopStatus
  | running
  | exitedDisabled
  | exitedRaised (e : PyExc)
deriving DecidableEq

/-- Events of one present-device iteration: launch the script with
`check=True`; a non-zero exit raises `CalledProcessError`, which is caught
and logged. -/
def iterEvents (script : String) : IterOutcome → List WorkerEvent
  | .present true => [.launch script]
  | .present false => [.launch script, .scriptError script]
  | _ => []

/-- Common while-loop of `run_t265` (ONICS.py lines 93–104) and `run_d4xx`
(lines 79–90), entered with the enabled flag true; the flag is written only
by this loop (set to `False` on the hardware-absent branch, then `break`).
Returns the events performed, the final flag value, and the loop status; a
trailing unconsumed environment means the loop is still running. -/
def runLoop (script warnMsg : String) : List IterOutcome → List WorkerEvent × Bool × LoopStatus
  | [] => ([], true, .running)
  | .present ok :: rest =>
      let r := runLoop script warnMsg rest
      (iterEvents script (.present ok) ++ r.1, r.2.1, r.2.2)
  | .absent :: _ =>
      ([.warnSkip warnMsg, .setDisabled], false, .exitedDisabled)
  | .probeRaises :: _ => ([], true, .exitedRaised .fileNotFoundError)

/-- Embedding of `run_t265()` (ONICS.py lines 93–104): if the global
`t265_enabled` is false on entry the loop body never runs. -/
def run_t265 (t265_enabled : Bool) (iters : List IterOutcome) :
    List WorkerEvent × Bool × LoopStatus :=
  if t265_enabled then
    runLoop "t265_precland_apriltags.py"
      "T265 device not detected. Skipping T265 script." iters
  else ([], false, .exitedDisabled)

/-- Embedding of `run_d4xx()` (ONICS.py lines 79–90). -/
def run_d4xx (d4xx_enabled : Bool) (iters : List IterOutcome) :
    List WorkerEvent × Bool × LoopStatus :=
  if d4xx_enabled then
    runLoop "d4xx_to_mavlink.py"
      "No D4XX device detected. Skipping D4XX script." iters
  else ([], false, .exitedDisabled)

/-- State of the log file and of `publish_logs` following it: `content` is
the append-only list of log lines, `initLen` the length when `publish_logs`
seeked to the end, `pos` its read position, `printed` the lines it has
surfaced (stripped, in order). -/
structure TailState where
  content : List String
  initLen : Nat
  pos : Nat
  printed : List String
deriving DecidableEq

/-- Start of `publish_logs()` (ONICS.py lines 107–109): open the log file
and `seek(0, os.SEEK_END)`, so following starts at the current end and
pre-existing history is never surfaced. -/
def tailStart (content : List String) : TailState :=
  { content := content, initLen := content.length, pos := content.length, printed := [] }

/-- One pass of the `while True` body of `publish_logs` (ONICS.py lines
110–115): `readline()` returns the next appended line if one exists, which
is stripped and printed; otherwise the state is unchanged (the loop sleeps
one time unit and retries). -/
def readLine (t : TailState) : TailState :=
  match t.content[t.pos]? with
  | none => t
  | some l => { t with pos := t.pos + 1, printed := t.printed ++ [pyStrip l] }

/-- Iterated reading passes. -/
def readSteps : Nat → TailState → TailState
  | 0, t => t
  | n + 1, t => readSteps n (readLine t)

/-- Interleaving of `publish_logs` with the concurrent producers: a step is
either some producer appending one line to the log file, or `publish_logs`
executing one pass of its loop body. -/
inductive TailStep : TailState → TailState → Prop
  | append (l : String) (t : TailState) :
      TailStep t { t with content := t.content ++ [l] }
  | read (t : TailState) : TailStep t (readLine t)

/-- Reachability in zero or more tail steps. -/
def TailReach : TailState → TailState → Prop := Relation.ReflTransGen TailStep

/-- Invariant tying a tail state to the log content `c` present when
`publish_logs` started: the seek position never moved below the initial
end, never ran past the content, the original content is still a prefix of
the (append-only) file, and the lines printed so far are exactly the
stripped lines appended after the start, up to the read position, in append
order. -/
def TailInv (c : List String) (t : TailState) : Prop :=
  t.initLen = c.length
  ∧ t.content.take c.length = c
  ∧ c.length ≤ t.pos
  ∧ t.pos ≤ t.content.length
  ∧ t.printed = ((t.content.drop c.length).take (t.pos - c.length)).map pyStrip

/-! ### Helper lemmas about the monitor loop -/

theorem spawnPass_preserves (l : List (Nat × Worker)) (s : SupState) :
    (spawnPass l s).t265_enabled = s.t265_enabled
  ∧ (spawnPass l s).d4xx_enabled = s.d4xx_enabled := by
  induction l generalizing s with
  | nil => exact ⟨rfl, rfl⟩
  | cons p rest ih =>
      obtain ⟨id, w⟩ := p
      by_cases h : isLive s.runs id = true
      · simpa [spawnPass, h] using ih s
      · simpa [spawnPass, h] using
          ih { s with runs := s.runs ++ [(s.nextId, w)], nextId := s.nextId + 1 }

theorem mem_runs_spawnPass (l : List (Nat × Worker)) (s : SupState)
    (r : Nat × Worker) (h : r ∈ s.runs) : r ∈ (spawnPass l s).runs := by
  induction l generalizing s with
  | nil => exact h
  | cons p rest ih =>
      obtain ⟨id, w⟩ := p
      by_cases hl : isLive s.runs id = true
      · simpa [spawnPass, hl] using ih s h
      · simpa [spawnPass, hl] using
          ih { s with runs := s.runs ++ [(s.nextId, w)], nextId := s.nextId + 1 }
            (List.mem_append_left _ h)

theorem spawnPass_mem_cases (l : List (Nat × Worker)) (s : SupState)
    (r : Nat × Worker) (h : r ∈ (spawnPass l s).runs) :
    r ∈ s.runs ∨ ∃ id, (id, r.2) ∈ l := by
  induction l generalizing s with
  | nil => exact Or.inl h
  | cons p rest ih =>
      obtain ⟨id, w⟩ := p
      by_cases hl : isLive s.runs id = true
      · rcases ih s (by simpa [spawnPass, hl] using h) with h1 | ⟨id2, h2⟩
        · exact Or.inl h1
        · exact Or.inr ⟨id2, List.mem_cons_of_mem _ h2⟩
      · rcases ih { s with runs := s.runs ++ [(s.nextId, w)], nextId := s.nextId + 1 }
            (by simpa [spawnPass, hl] using h) with h1 | ⟨id2, h2⟩
        · rcases List.mem_append.mp h1 with h3 | h3
          · exact Or.inl h3
          · have hw : r.2 = w := by
              have := List.mem_singleton.mp h3
              rw [this]
            exact Or.inr ⟨id, by rw [hw]; exact List.mem_cons_self _ _⟩
        · exact Or.inr ⟨id2, List.mem_cons_of_mem _ h2⟩

theorem monitorCycle_flags (died : List Nat) (s : SupState) :
    (monitorCycle died s).t265_enabled = s.t265_enabled
  ∧ (monitorCycle died s).d4xx_enabled = s.d4xx_enabled :=
  spawnPass_preserves (checkedThreads (afterDeaths died s)) (afterDeaths died s)

theorem monitorCycle_mem_cases (died : List Nat) (s : SupState)
    (r : Nat × Worker) (h : r ∈ (monitorCycle died s).runs) :
    r ∈ s.runs ∨ ∃ id, (id, r.2) ∈ checkedThreads s := by
  rcases spawnPass_mem_cases _ _ r h with h1 | h2
  · exact Or.inl (List.mem_of_mem_filter h1)
  · exact Or.inr h2

theorem checked_kind_t265 (s : SupState) (id : Nat)
    (h : (id, Worker.t265) ∈ checkedThreads s) : s.t265_enabled = true := by
  cases ht : s.t265_enabled with
  | true => rfl
  | false =>
      exfalso
      cases hd : s.d4xx_enabled <;> simp [checkedThreads, ht, hd] at h

theorem checked_kind_d4xx (s : SupState) (id : Nat)
    (h : (id, Worker.d4xx) ∈ checkedThreads s) : s.d4xx_enabled = true := by
  cases hd : s.d4xx_enabled with
  | true => rfl
  | false =>
      exfalso
      cases ht : s.t265_enabled <;> simp [checkedThreads, ht, hd] at h

theorem supStep_flags_mono {s t : SupState} (h : SupStep s t) :
    (s.t265_enabled = false → t.t265_enabled = false)
  ∧ (s.d4xx_enabled = false → t.d4xx_enabled = false) := by
  cases h with
  | monitor died s =>
      exact ⟨fun h0 => (monitorCycle_flags died s).1.trans h0,
             fun h0 => (monitorCycle_flags died s).2.trans h0⟩
  | terminate id s => exact ⟨fun h0 => h0, fun h0 => h0⟩
  | disableT265 id s hm => exact ⟨fun _ => rfl, fun h0 => h0⟩
  | disableD4xx id s hm => exact ⟨fun h0 => h0, fun _ => rfl⟩

theorem supReach_flags_mono {s t : SupState} (h : SupReach s t) :
    (s.t265_enabled = false → t.t265_enabled = false)
  ∧ (s.d4xx_enabled = false → t.d4xx_enabled = false) := by
  induction h with
  | refl => exact ⟨fun h0 => h0, fun h0 => h0⟩
  | tail hr hstep ih =>
      have hm := supStep_flags_mono hstep
      exact ⟨fun h0 => hm.1 (ih.1 h0), fun h0 => hm.2 (ih.2 h0)⟩

theorem supStep_mavOnly {s t : SupState} (h : SupStep s t) (hm : MavOnly s) :
    MavOnly t := by
  obtain ⟨ht, hd, hruns⟩ := hm
  cases h with
  | monitor died s =>
      refine ⟨(monitorCycle_flags died s).1.trans ht,
              (monitorCycle_flags died s).2.trans hd, ?_⟩
      intro r hr
      rcases monitorCycle_mem_cases died s r hr with h1 | ⟨id, h2⟩
      · exact hruns r h1
      · simp [checkedThreads, ht, hd] at h2
        exact h2.2
  | terminate id s =>
      exact ⟨ht, hd, fun r hr => hruns r (List.mem_of_mem_filter hr)⟩
  | disableT265 id s hmem => exact ⟨rfl, hd, hruns⟩
  | disableD4xx id s hmem => exact ⟨ht, rfl, hruns⟩

theorem supReach_mavOnly {s t : SupState} (h : SupReach s t) (hm : MavOnly s) :
    MavOnly t := by
  induction h with
  | refl => exact hm
  | tail hr hstep ih => exact supStep_mavOnly hstep ih

/-! ### Helper lemmas about the worker run loops -/

theorem runLoop_absent (sc w : String) (pre post : List IterOutcome)
    (hpre : ∀ o ∈ pre, ∃ b, o = IterOutcome.present b) :
    runLoop sc w (pre ++ IterOutcome.absent :: post)
      = (pre.flatMap (iterEvents sc)
          ++ [WorkerEvent.warnSkip w, WorkerEvent.setDisabled],
         false, LoopStatus.exitedDisabled) := by
  induction pre with
  | nil => rfl
  | cons o rest ih =>
      obtain ⟨b, rfl⟩ := hpre o (List.mem_cons_self o rest)
      have ih2 := ih (fun o ho => hpre o (List.mem_cons_of_mem _ ho))
      cases b <;> simp [runLoop, iterEvents, ih2]

theorem setDisabled_not_mem_bind (sc : String) (pre : List IterOutcome)
    (hpre : ∀ o ∈ pre, ∃ b, o = IterOutcome.present b) :
    WorkerEvent.setDisabled ∉ pre.flatMap (iterEvents sc) := by
  intro hmem
  rcases List.mem_flatMap.mp hmem with ⟨o, ho, hev⟩
  rcases hpre o ho with ⟨b, rfl⟩
  cases b <;> simp [iterEvents] at hev

theorem count_setDisabled (sc w : String) (pre : List IterOutcome)
    (hpre : ∀ o ∈ pre, ∃ b, o = IterOutcome.present b) :
    (pre.flatMap (iterEvents sc)
      ++ [WorkerEvent.warnSkip w, WorkerEvent.setDisabled]).count
        WorkerEvent.setDisabled = 1 := by
  rw [List.count_append]
  rw [List.count_eq_zero.mpr (setDisabled_not_mem_bind sc pre hpre)]
  simp [List.count_cons]

/-! ### Helper lemmas about the device prober and the diagnostic -/

theorem scanForDevice_eq_any (pfx : String) (lines : List String) :
    scanForDevice pfx lines = lines.any (fun l => pyIn pfx l) := by
  induction lines with
  | nil => rfl
  | cons l rest ih =>
      by_cases h : pyIn pfx l = true
      · simp [scanForDevice, h]
      · simp [scanForDevice, h, ih]

theorem appendMatches_eq (line : String) (ps : List String) :
    appendMatches line ps
      = if ps.any (fun p => pyIn p line) then [pyStrip line] else [] := by
  induction ps with
  | nil => rfl
  | cons p rest ih =>
      by_cases h : pyIn p line = true
      · simp [appendMatches, h]
      · simp [appendMatches, h, ih]

theorem detectLines_eq (lines : List String) :
    detectLines lines
      = (lines.filter (fun l => relevant_devices.any (fun p => pyIn p l))).map pyStrip := by
  induction lines with
  | nil => rfl
  | cons l rest ih =>
      by_cases h : relevant_devices.any (fun p => pyIn p l) = true
      · simp [detectLines, appendMatches_eq, h, ih]
      · simp [detectLines, appendMatches_eq, h, ih]

theorem appendMatches_length (line : String) (ps : List String) :
    (appendMatches line ps).length ≤ 1 := by
  induction ps with
  | nil => simp [appendMatches]
  | cons p rest ih =>
      by_cases h : pyIn p line = true
      · simp [appendMatches, h]
      · simpa [appendMatches, h] using ih

theorem detectLines_length (lines : List String) :
    (detectLines lines).length ≤ lines.length := by
  induction lines with
  | nil => simp [detectLines]
  | cons l rest ih =>
      have h := appendMatches_length l relevant_devices
      simp only [detectLines, List.length_append, List.length_cons]
      omega

/-! ### Claim theorems about the device prober and the diagnostic -/

/-- C2 (code bug): `is_device_connected` is meant to turn any failure of the
enumeration tool into `False` plus a log record, but its `except` clause
catches only `subprocess.CalledProcessError`, which `subprocess.run` without
`check=True` never raises.  Evaluated at the failing inputs: a missing tool
raises `FileNotFoundError`, which escapes the function uncaught; an abnormal
(non-zero) exit is not detected at all — nothing is logged and the result is
just the stdout scan, which can even be `True`. -/
theorem device_probe_failure_escapes :
    is_device_connected "T265" SubprocessOutcome.raisesFileNotFound
      = (Except.error PyExc.fileNotFoundError, [])
  ∧ is_device_connected "T265" (SubprocessOutcome.completes 1 [])
      = (Except.ok false, [])
  ∧ is_device_connected "T265" (SubprocessOutcome.completes 1 ["T265 line"])
      = (Except.ok true, []) :=
  ⟨rfl, rfl, rfl⟩

/-- C7: on a normal run of the enumeration tool, `is_device_connected`
consumes exactly one invocation outcome, and returns true exactly when some
stdout line contains the device prefix as a case-sensitive substring (the
scan returns at the first matching line, false after scanning all lines). -/
theorem device_probe_scans_stdout (pfx : String) (rc : Int) (lines : List String)
    (rest : List SubprocessOutcome) :
    (is_device_connectedEnv pfx (SubprocessOutcome.completes rc lines :: rest)).2 = rest
  ∧ is_device_connected pfx (SubprocessOutcome.completes rc lines)
      = (Except.ok (lines.any (fun l => pyIn pfx l)), [])
  ∧ (is_device_connected pfx (SubprocessOutcome.completes rc lines)
        = (Except.ok true, ([] : List LogLine))
      ↔ ∃ l ∈ lines, pyIn pfx l = true) := by
  have h2 : is_device_connected pfx (SubprocessOutcome.completes rc lines)
      = (Except.ok (lines.any (fun l => pyIn pfx l)), []) := by
    simp [is_device_connected, deviceCheckBody, scanForDevice_eq_any]
  refine ⟨rfl, h2, ?_⟩
  rw [h2]
  simp [List.any_eq_true, Prod.ext_iff]

/-- C9: selecting the `--enumerate` flag takes only the diagnostic branch
(supervision is skipped); on a normal tool run `enumerate_devices` prints
one line per stdout line matching some relevant device class
(`relevant_devices = ["T265", "D4"]`), stripped, under a header, or the
none-detected message when nothing matches. -/
theorem enumerate_diagnostic_report (rc : Int) (lines : List String) (a : Args)
    (ha : a.enumerate = true) :
    mainBranch a = MainBranch.diagnostic
  ∧ enumerate_devices (SubprocessOutcome.completes rc lines)
      = Except.ok (printReport (detectLines lines))
  ∧ detectLines lines
      = (lines.filter (fun l => relevant_devices.any (fun p => pyIn p l))).map pyStrip
  ∧ (detectLines lines = [] →
      enumerate_devices (SubprocessOutcome.completes rc lines)
        = Except.ok ["No relevant RealSense devices detected."]) := by
  refine ⟨by simp [mainBranch, ha], rfl, detectLines_eq lines, ?_⟩
  intro h
  simp [enumerate_devices, h, printReport]

/-- Witness for C9 at a concrete input: with `--enumerate` set the main
block takes the diagnostic branch, and a stdout line containing `T265` is
reported under the header. -/
theorem enumerate_diagnostic_report_witness :
    mainBranch ⟨true, false, false, false⟩ = MainBranch.diagnostic
  ∧ enumerate_devices (SubprocessOutcome.completes 0 ["a T265 b"])
      = Except.ok ["Detected RealSense Devices:", "a T265 b"] :=
  ⟨(enumerate_diagnostic_report 0 ["a T265 b"] ⟨true, false, false, false⟩ rfl).1,
   (enumerate_diagnostic_report 0 ["a T265 b"] ⟨true, false, false, false⟩ rfl).2.1.trans rfl⟩

/-- C10: the inner loop of `enumerate_devices` appends a given stdout line
to `detected_devices` at most once, because it `break`s at the first
matching device class; so the report never exceeds one entry per stdout
line, even for a line matching both `T265` and `D4` (last conjunct: a line
containing both appears exactly once). -/
theorem detect_appends_line_at_most_once :
    (∀ line ps, (appendMatches line ps).length ≤ 1)
  ∧ (∀ lines, (detectLines lines).length ≤ lines.length)
  ∧ detectLines ["Intel RealSense T265 on D455"] = ["Intel RealSense T265 on D455"] :=
  ⟨appendMatches_length, detectLines_length, by decide⟩

/-! ### Claim theorems about the supervision layer -/

/-- C1 (code bug): the monitor loop's respawn rebinds only the loop-local
variable, never `thread1`/`thread2`/`thread3`, so once the original mavproxy
thread (id 0) has died, every later cycle finds the stale handle dead and
starts yet another thread.  Evaluated concretely with every flag off at
startup: after the original mavproxy thread dies once and two monitor
cycles pass (the restarted thread staying alive), two mavproxy threads
(ids 3 and 4) are alive at the same instant — more than one live WorkerRun
for the same spec. -/
theorem monitor_double_spawn_bug :
    ((monitorCycle [] (monitorCycle [0] (initState ⟨false, false, false, false⟩))).runs.filter
        (fun r => r.2 == Worker.mav)).length = 2
  ∧ (3, Worker.mav)
      ∈ (monitorCycle [] (monitorCycle [0] (initState ⟨false, false, false, false⟩))).runs
  ∧ (4, Worker.mav)
      ∈ (monitorCycle [] (monitorCycle [0] (initState ⟨false, false, false, false⟩))).runs := by
  refine ⟨by decide, by decide, by decide⟩

/-- C3: the telemetry relay (`mavproxy_create_connection`) has no enabled
flag, so the `threads` list of every monitor cycle unconditionally contains
its entry — nothing can disable it; and in any cycle whose liveness check
finds `thread1` dead, a fresh mavproxy thread (with the next fresh id) is
alive by the end of that same cycle, i.e. within one polling interval of
the termination. -/
theorem mav_relay_always_restarted (s : SupState) (died : List Nat)
    (hdead : isLive (afterDeaths died s).runs s.thread1 = false) :
    (∀ u : SupState, (u.thread1, Worker.mav) ∈ checkedThreads u)
  ∧ (s.nextId, Worker.mav) ∈ (monitorCycle died s).runs := by
  constructor
  · intro u
    simp [checkedThreads]
  · show (s.nextId, Worker.mav)
      ∈ (spawnPass (checkedThreads (afterDeaths died s)) (afterDeaths died s)).runs
    have hs : checkedThreads (afterDeaths died s)
        = (s.thread1, Worker.mav) ::
          ((if (afterDeaths died s).t265_enabled
              then [((afterDeaths died s).thread2, Worker.t265)] else [])
            ++ (if (afterDeaths died s).d4xx_enabled
              then [((afterDeaths died s).thread3, Worker.d4xx)] else [])) := rfl
    rw [hs]
    simp only [spawnPass, hdead, Bool.false_eq_true, if_false]
    exact mem_runs_spawnPass _ _ _
      (List.mem_append_right _ (List.mem_singleton_self _))

/-- Witness for C3 at a concrete input: with all flags off at startup, if
the original mavproxy thread (id 0) dies, the next monitor cycle has a
fresh mavproxy thread with id 3 alive. -/
theorem mav_relay_always_restarted_witness :
    ((initState ⟨false, false, false, false⟩).thread1, Worker.mav)
      ∈ checkedThreads (initState ⟨false, false, false, false⟩)
  ∧ (3, Worker.mav) ∈ (monitorCycle [0] (initState ⟨false, false, false, false⟩)).runs :=
  ⟨(mav_relay_always_restarted (initState ⟨false, false, false, false⟩) [0]
      (by decide)).1 _,
   (mav_relay_always_restarted (initState ⟨false, false, false, false⟩) [0]
      (by decide)).2⟩

/-- C4: for the hardware-gated workers, when the probe reports the device
absent (after any number of successful-probe iterations), the run loop logs
the skip warning, writes `False` to its enabled flag exactly once, and
exits with status `exitedDisabled`, performing no further launches whatever
comes later in the environment (`post` is never consumed).  Per worker,
conditioned only on that worker's own flag (the other worker may stay
enabled and running): once the flag is false, a monitor cycle starts no new
thread of that kind — any live t265/d4xx thread after the cycle was already
alive before it — and the flag stays false in every further reachable
state, so the script is never launched again within the process
lifetime. -/
theorem hardware_absent_disables_permanently
    (pre post : List IterOutcome) (s : SupState) (died : List Nat)
    (hpre : ∀ o ∈ pre, ∃ b, o = IterOutcome.present b) :
    run_t265 true (pre ++ IterOutcome.absent :: post)
      = (pre.flatMap (iterEvents "t265_precland_apriltags.py")
          ++ [WorkerEvent.warnSkip "T265 device not detected. Skipping T265 script.",
              WorkerEvent.setDisabled], false, LoopStatus.exitedDisabled)
  ∧ run_d4xx true (pre ++ IterOutcome.absent :: post)
      = (pre.flatMap (iterEvents "d4xx_to_mavlink.py")
          ++ [WorkerEvent.warnSkip "No D4XX device detected. Skipping D4XX script.",
              WorkerEvent.setDisabled], false, LoopStatus.exitedDisabled)
  ∧ (run_t265 true (pre ++ IterOutcome.absent :: post)).1.count
        WorkerEvent.setDisabled = 1
  ∧ (run_d4xx true (pre ++ IterOutcome.absent :: post)).1.count
        WorkerEvent.setDisabled = 1
  ∧ (s.t265_enabled = false →
      (∀ r ∈ (monitorCycle died s).runs, r.2 = Worker.t265 → r ∈ s.runs)
      ∧ ∀ u, SupReach s u → u.t265_enabled = false)
  ∧ (s.d4xx_enabled = false →
      (∀ r ∈ (monitorCycle died s).runs, r.2 = Worker.d4xx → r ∈ s.runs)
      ∧ ∀ u, SupReach s u → u.d4xx_enabled = false) := by
  have h1 := runLoop_absent "t265_precland_apriltags.py"
    "T265 device not detected. Skipping T265 script." pre post hpre
  have h2 := runLoop_absent "d4xx_to_mavlink.py"
    "No D4XX device detected. Skipping D4XX script." pre post hpre
  have e1 : run_t265 true (pre ++ IterOutcome.absent :: post)
      = runLoop "t265_precland_apriltags.py"
          "T265 device not detected. Skipping T265 script."
          (pre ++ IterOutcome.absent :: post) := rfl
  have e2 : run_d4xx true (pre ++ IterOutcome.absent :: post)
      = runLoop "d4xx_to_mavlink.py"
          "No D4XX device detected. Skipping D4XX script."
          (pre ++ IterOutcome.absent :: post) := rfl
  refine ⟨e1.trans h1, e2.trans h2, ?_, ?_, ?_, ?_⟩
  · rw [e1, h1]
    exact count_setDisabled _ _ pre hpre
  · rw [e2, h2]
    exact count_setDisabled _ _ pre hpre
  · intro ht
    refine ⟨?_, fun u hu => (supReach_flags_mono hu).1 ht⟩
    intro r hr hk
    rcases monitorCycle_mem_cases died s r hr with h3 | ⟨id, h3⟩
    · exact h3
    · rw [hk] at h3
      rw [checked_kind_t265 s id h3] at ht
      exact absurd ht (by simp)
  · intro hd
    refine ⟨?_, fun u hu => (supReach_flags_mono hu).2 hd⟩
    intro r hr hk
    rcases monitorCycle_mem_cases died s r hr with h3 | ⟨id, h3⟩
    · exact h3
    · rw [hk] at h3
      rw [checked_kind_d4xx s id h3] at hd
      exact absurd hd (by simp)

/-- Witness for C4 at a concrete input: one successful launch, then the
probe reports the T265 absent — the events end with the warning and the
single flag write, the flag is false, the loop is exited; and from the
state reached by `--disable-t265` alone (t265 flag false while the d4xx
flag is still true and its thread running), a monitor cycle starts no t265
thread even though it restarts the dead mavproxy thread. -/
theorem hardware_absent_disables_permanently_witness :
    run_t265 true [IterOutcome.present true, IterOutcome.absent]
      = ([WorkerEvent.launch "t265_precland_apriltags.py",
          WorkerEvent.warnSkip "T265 device not detected. Skipping T265 script.",
          WorkerEvent.setDisabled], false, LoopStatus.exitedDisabled)
  ∧ (run_t265 true [IterOutcome.present true, IterOutcome.absent]).1.count
        WorkerEvent.setDisabled = 1
  ∧ ∀ r ∈ (monitorCycle [0] (initState ⟨false, true, false, false⟩)).runs,
      r.2 = Worker.t265 → r ∈ (initState ⟨false, true, false, false⟩).runs :=
  ⟨(hardware_absent_disables_permanently [IterOutcome.present true] []
      (initState ⟨false, true, false, false⟩) [0] (by intro o ho; exact ⟨true, by
        simpa using ho⟩)).1.trans rfl,
   (hardware_absent_disables_permanently [IterOutcome.present true] []
      (initState ⟨false, true, false, false⟩) [0] (by intro o ho; exact ⟨true, by
        simpa using ho⟩)).2.2.1,
   ((hardware_absent_disables_permanently [IterOutcome.present true] []
      (initState ⟨false, true, false, false⟩) [0] (by intro o ho; exact ⟨true, by
        simpa using ho⟩)).2.2.2.2.1 rfl).1⟩

/-- C5: the enabled flags are monotone.  No supervision step — monitor
cycle, thread termination, or a run loop's hardware-absent write — ever
turns a false flag back to true, so along any reachable execution a flag
that is false stays false; and the initial supervision state carries
exactly the flags resolved by startup configuration. -/
theorem enabled_flags_monotone (s t : SupState) (h : SupReach s t) :
    (s.t265_enabled = false → t.t265_enabled = false)
  ∧ (s.d4xx_enabled = false → t.d4xx_enabled = false)
  ∧ (∀ a : Args, (initState a).t265_enabled = (flagsAfterStartup a).1
      ∧ (initState a).d4xx_enabled = (flagsAfterStartup a).2) :=
  ⟨(supReach_flags_mono h).1, (supReach_flags_mono h).2,
   fun _ => ⟨rfl, rfl⟩⟩

/-- Witness for C5 at a concrete input: starting from the sik-only initial
state (both flags false) and running one monitor cycle, both flags are
still false. -/
theorem enabled_flags_monotone_witness :
    (monitorCycle [] (initState ⟨false, false, false, true⟩)).t265_enabled = false
  ∧ (monitorCycle [] (initState ⟨false, false, false, true⟩)).d4xx_enabled = false :=
  ⟨(enabled_flags_monotone (initState ⟨false, false, false, true⟩) _
      (Relation.ReflTransGen.single (SupStep.monitor [] _))).1 rfl,
   (enabled_flags_monotone (initState ⟨false, false, false, true⟩) _
      (Relation.ReflTransGen.single (SupStep.monitor [] _))).2.1 rfl⟩

/-- C6: with `--sik-only`, startup resolves both hardware-gated flags to
false before any thread starts, the only thread started is the telemetry
relay, and in every reachable supervision state both flags remain false and
every live thread runs the relay — so `run_t265` / `run_d4xx` (the only
callers of the device probe for T265/D4XX, and the only launchers of their
scripts) never execute. -/
theorem sik_only_starts_relay_only (a : Args) (t : SupState)
    (hs : a.sik_only = true) (hr : SupReach (initState a) t) :
    flagsAfterStartup a = (false, false)
  ∧ (initState a).runs = [(0, Worker.mav)]
  ∧ MavOnly t := by
  have hf : flagsAfterStartup a = (false, false) := by simp [flagsAfterStartup, hs]
  have h1 : (initState a).t265_enabled = false := by
    show (flagsAfterStartup a).1 = false
    rw [hf]
  have h2 : (initState a).d4xx_enabled = false := by
    show (flagsAfterStartup a).2 = false
    rw [hf]
  have hruns : (initState a).runs = [(0, Worker.mav)] := by
    show [(0, Worker.mav)]
        ++ (if (flagsAfterStartup a).1 then _ else [])
        ++ (if (flagsAfterStartup a).2 then _ else []) = [(0, Worker.mav)]
    rw [hf]
    simp
  refine ⟨hf, hruns, supReach_mavOnly hr ⟨h1, h2, ?_⟩⟩
  intro r hrr
  rw [hruns] at hrr
  rw [List.mem_singleton.mp hrr]

/-- Witness for C6 at a concrete input: with only `--sik-only` set, after
one monitor cycle both flags are false and every live thread is the
telemetry relay. -/
theorem sik_only_starts_relay_only_witness :
    flagsAfterStartup ⟨false, false, false, true⟩ = (false, false)
  ∧ MavOnly (monitorCycle [] (initState ⟨false, false, false, true⟩)) :=
  ⟨(sik_only_starts_relay_only ⟨false, false, false, true⟩ _ rfl
      (Relation.ReflTransGen.single (SupStep.monitor [] _))).1,
   (sik_only_starts_relay_only ⟨false, false, false, true⟩ _ rfl
      (Relation.ReflTransGen.single (SupStep.monitor [] _))).2.2⟩

/-! ### Helper lemmas about the log tail -/

theorem tailStart_inv (c : List String) : TailInv c (tailStart c) := by
  refine ⟨rfl, List.take_length c, Nat.le_refl _, Nat.le_refl _, ?_⟩
  simp [tailStart]

theorem tailStep_inv {t t2 : TailState} (c : List String)
    (h : TailStep t t2) (hi : TailInv c t) : TailInv c t2 := by
  obtain ⟨h0, h1, h2, h3, h4⟩ := hi
  cases h with
  | append l t =>
      have hc : c.length ≤ t.content.length := Nat.le_trans h2 h3
      refine ⟨h0, ?_, h2, ?_, ?_⟩
      · rw [List.take_append_of_le_length hc]
        exact h1
      · simp only [List.length_append, List.length_cons, List.length_nil]
        omega
      · show t.printed
          = (((t.content ++ [l]).drop c.length).take (t.pos - c.length)).map pyStrip
        rw [List.drop_append_of_le_length hc]
        rw [List.take_append_of_le_length (by rw [List.length_drop]; omega)]
        exact h4
  | read t =>
      cases hget : t.content[t.pos]? with
      | none =>
          have heq : readLine t = t := by simp [readLine, hget]
          rw [heq]
          exact ⟨h0, h1, h2, h3, h4⟩
      | some l =>
          have hlt : t.pos < t.content.length := by
            by_contra hn
            rw [List.getElem?_eq_none_iff.mpr (Nat.le_of_not_lt hn)] at hget
            exact Option.noConfusion hget
          have heq : readLine t
              = { t with pos := t.pos + 1, printed := t.printed ++ [pyStrip l] } := by
            simp [readLine, hget]
          rw [heq]
          refine ⟨h0, h1, Nat.le_trans h2 (Nat.le_succ _), hlt, ?_⟩
          show t.printed ++ [pyStrip l]
            = ((t.content.drop c.length).take (t.pos + 1 - c.length)).map pyStrip
          have hp1 : t.pos + 1 - c.length = (t.pos - c.length) + 1 := by omega
          have hg : (t.content.drop c.length)[t.pos - c.length]? = some l := by
            rw [List.getElem?_drop]
            have hadd : c.length + (t.pos - c.length) = t.pos := by omega
            rw [hadd, hget]
          rw [hp1, List.take_succ, hg]
          simp [h4]

theorem tailReach_inv {t t2 : TailState} (c : List String)
    (h : TailReach t t2) (hi : TailInv c t) : TailInv c t2 := by
  induction h with
  | refl => exact hi
  | tail hr hstep ih => exact tailStep_inv c hstep ih

theorem readSteps_drain (c : List String) (n : Nat) (t : TailState)
    (hi : TailInv c t) (hn : t.content.length ≤ t.pos + n) :
    (readSteps n t).printed = (t.content.drop c.length).map pyStrip := by
  induction n generalizing t with
  | zero =>
      obtain ⟨h0, h1, h2, h3, h4⟩ := hi
      have hp : t.pos = t.content.length := by omega
      rw [readSteps, h4, hp]
      have hl : t.content.length - c.length = (t.content.drop c.length).length := by
        rw [List.length_drop]
      rw [hl, List.take_length]
  | succ n ih =>
      rw [readSteps]
      cases hget : t.content[t.pos]? with
      | none =>
          have heq : readLine t = t := by simp [readLine, hget]
          rw [heq]
          exact ih t hi (by
            have := List.getElem?_eq_none_iff.mp hget
            omega)
      | some l =>
          have hi2 := tailStep_inv c (TailStep.read t) hi
          have hcontent : (readLine t).content = t.content := by
            simp [readLine, hget]
          have hpos : (readLine t).pos = t.pos + 1 := by
            simp [readLine, hget]
          have := ih (readLine t) hi2 (by rw [hcontent, hpos]; omega)
          rw [this, hcontent]

/-! ### Claim theorem about the log tail -/

/-- C8: `publish_logs` opens the log, seeks to its end (so the `c.length`
pre-existing lines are never surfaced) and then polls: an appended line is
surfaced (stripped) as soon as a read pass sees it, otherwise the pass
leaves the state unchanged (sleep one time unit).  In every state reachable
under arbitrary interleaving of producer appends and read passes, the
printed lines are exactly the stripped lines appended after the start, up
to the read position, in append order — each surfaced once, none
duplicated, none skipped; and enough read passes surface every appended
line (nothing is dropped). -/
theorem publish_logs_follows_appends (c : List String) (t : TailState)
    (h : TailReach (tailStart c) t) :
    t.initLen = c.length
  ∧ t.content.take c.length = c
  ∧ t.printed = ((t.content.drop c.length).take (t.pos - c.length)).map pyStrip
  ∧ (readSteps (t.content.length - t.pos) t).printed
      = (t.content.drop c.length).map pyStrip := by
  have hi := tailReach_inv c h (tailStart_inv c)
  exact ⟨hi.1, hi.2.1, hi.2.2.2.2,
    readSteps_drain c _ t hi (by omega)⟩

/-- Witness for C8 at a concrete input: the tail starts after one
pre-existing line, a producer appends one line, and one read pass surfaces
exactly that line, stripped, while the history line is never printed. -/
theorem publish_logs_follows_appends_witness :
    (readLine { content := ["old", "  new line  "], initLen := 1, pos := 1,
                printed := [] } : TailState).printed = ["new line"] := by
  have h := publish_logs_follows_appends ["old"] _
    (Relation.ReflTransGen.tail
      (Relation.ReflTransGen.single (TailStep.append "  new line  " (tailStart ["old"])))
      (TailStep.read _))
  exact h.2.2.1.trans (by decide)

end ONICS
